import Mathlib

/-!
Verification development for the `discord-authorize` TypeScript client
(`src/auth/authenticator.ts`).  The class `DiscordAuthorization` wraps a
single authenticated-request executor (`request`) plus thin call sites
(link generation, token exchange, revocation, profile fetches).

The embedding is shallow:
* JavaScript/JSON values are modelled by the inductive `Json`; JavaScript
  `undefined` is modelled by `Option Json` with `none` = undefined.
* The axios transport collaborator is an oracle: each executor call is a
  function of an `AxiosOutcome` describing what the transport did.  Axios
  with its default `validateStatus` resolves exactly for statuses in
  [200, 300) and otherwise rejects with an error object carrying the
  response; a network-level failure rejects with no response attached.
* Thrown JavaScript errors are values of `ApiError`.  The classified error
  classes (`InvalidAccessTokenError`, ...) live in `../errors`, a module not
  in the provided sources; following the spec they carry a human message and
  a serialized response-body context.  Plain `Error` / `TypeError` are
  modelled by `jsError` / `typeError`.
-/

/-- JSON values as produced by the Discord API and consumed by the client. -/
inductive Json where
  | null : Json
  | bool : Bool → Json
  | num : Int → Json
  | str : String → Json
  | arr : List Json → Json
  | obj : List (String × Json) → Json

/-- JavaScript truthiness of a (defined, non-`undefined`) JSON value. -/
def Json.truthy : Json → Bool
  | .null => false
  | .bool b => b
  | .num n => n != 0
  | .str s => s != ""
  | .arr _ => true
  | .obj _ => true

/-- Property read on a defined value: objects yield the field (or
`undefined` = `none` when absent); other values yield `undefined` for the
field names this client reads. -/
def Json.getField : Json → String → Option Json
  | .obj fs, k => (fs.find? (fun p => p.1 == k)).map (fun p => p.2)
  | _, _ => none

def escapeJsonChar (c : Char) : String :=
  if c = '"' then "\\\""
  else if c = '\\' then "\\\\"
  else if c = '\n' then "\\n"
  else if c = '\r' then "\\r"
  else if c = '\t' then "\\t"
  else String.singleton c

def escapeJson (s : String) : String :=
  s.data.foldl (fun acc c => acc ++ escapeJsonChar c) ""

mutual

/-- Model of `JSON.stringify` on the JSON fragment used by the client. -/
def jsonStringify : Json → String
  | .null => "null"
  | .bool b => if b then "true" else "false"
  | .num n => toString n
  | .str s => "\"" ++ escapeJson s ++ "\""
  | .arr xs => "[" ++ jsonStringifyList xs ++ "]"
  | .obj fs => "\x7b" ++ jsonStringifyFields fs ++ "\x7d"

def jsonStringifyList : List Json → String
  | [] => ""
  | [x] => jsonStringify x
  | x :: y :: rest => jsonStringify x ++ "," ++ jsonStringifyList (y :: rest)

def jsonStringifyFields : List (String × Json) → String
  | [] => ""
  | [p] => "\"" ++ escapeJson p.1 ++ "\":" ++ jsonStringify p.2
  | p :: q :: rest =>
      "\"" ++ escapeJson p.1 ++ "\":" ++ jsonStringify p.2 ++ "," ++
        jsonStringifyFields (q :: rest)

end

/-- Errors thrown by the client.  The first six constructors are the
classified error classes imported from `../errors`; modelled from the spec:
`../errors` is not among the provided sources, and per the spec each class
carries a human message and the raw response body as context.  `jsError` is
a plain JavaScript `Error`, `typeError` a JavaScript `TypeError` (e.g. a
property read on `undefined`). -/
inductive ApiError where
  | invalidAccessTokenError (message context : String)
  | notFoundError (message context : String)
  | badRequestError (message context : String)
  | rateLimitedError (message context : String)
  | discordAPIError (message context : String)
  | unauthorizedError (message context : String)
  | jsError (message : String)
  | typeError (message : String)
deriving DecidableEq, Repr

/-- The `message` carried by a thrown error. -/
def ApiError.message : ApiError → String
  | .invalidAccessTokenError m _ => m
  | .notFoundError m _ => m
  | .badRequestError m _ => m
  | .rateLimitedError m _ => m
  | .discordAPIError m _ => m
  | .unauthorizedError m _ => m
  | .jsError m => m
  | .typeError m => m

/-- Whether an error is of the `InvalidAccessToken` kind (the class thrown
for 401 responses). -/
def ApiError.isInvalidAccessTokenKind : ApiError → Bool
  | .invalidAccessTokenError _ _ => true
  | _ => false

/-- Whether an error is of the spec's `UpstreamServerError` kind, i.e. the
`DiscordAPIError` class thrown for 500 responses. -/
def ApiError.isUpstreamServerErrorKind : ApiError → Bool
  | .discordAPIError _ _ => true
  | _ => false

/-- The structured body context attached to a classified error, if any. -/
def ApiError.context : ApiError → Option String
  | .invalidAccessTokenError _ c => some c
  | .notFoundError _ c => some c
  | .badRequestError _ c => some c
  | .rateLimitedError _ c => some c
  | .discordAPIError _ c => some c
  | .unauthorizedError _ c => some c
  | .jsError _ => none
  | .typeError _ => none

/-- The mutable/immutable fields of a `DiscordAuthorization` instance. -/
structure DiscordAuthorization where
  clientId : String
  clientSecret : String
  redirectUri : String
  accessToken : Option String := none
  baseURL : String := "https://discord.com/api/v10"
  refreshToken : Option String := none
  clientToken : Option String := none
deriving DecidableEq, Repr

/-- JavaScript template-literal rendering of a nullable string
(`Bearer null` when the token is `null`). -/
def tmplStr : Option String → String
  | none => "null"
  | some s => s

/-- JavaScript falsiness of a nullable string field (`!this.accessToken`):
`null` and the empty string are falsy. -/
def jsFalsy : Option String → Bool
  | none => true
  | some s => s == ""

/-- The options bag passed to `request` (`AxiosRequestConfig`):
`headers`, query `params` (for GET) and a request `data` body.  An absent
field is `[]` / `none`. -/
structure RequestOptions where
  headers : List (String × String) := []
  params : Option (List (String × String)) := none
  data : Option String := none
deriving DecidableEq, Repr

/-- The concrete request configuration handed to `axios.request`. -/
structure RequestConfig where
  method : String
  url : String
  headers : List (String × String)
  params : Option (List (String × String)) := none
  data : Option String := none
deriving DecidableEq, Repr

/-- JavaScript object update `obj[k] = v` (equally, a spread followed by a
key assignment): the value at an existing key is overwritten in place,
otherwise the key is appended. -/
def objSet : List (String × String) → String → String → List (String × String)
  | [], k, v => [(k, v)]
  | p :: rest, k, v => if p.1 == k then (k, v) :: rest else p :: objSet rest k v

/-- First-match key lookup on a JavaScript-object model. -/
def lookupHeader : List (String × String) → String → Option String
  | [], _ => none
  | p :: rest, k => if p.1 == k then some p.2 else lookupHeader rest k

/-- Lines 54-57: the outbound headers are the caller's headers spread first,
then the injected `Authorization: Bearer <accessToken>` assigned on top. -/
def buildHeaders (auth : DiscordAuthorization)
    (callerHeaders : List (String × String)) : List (String × String) :=
  objSet callerHeaders "Authorization" ("Bearer " ++ tmplStr auth.accessToken)

/-- Lines 59-71 of `request`: build the `requestOptions` object
(spread of `options`, then `method`, `url`, merged `headers`; `params` kept
for GET with params present, `data` kept for PUT/POST/PATCH). -/
def buildRequestConfig (auth : DiscordAuthorization) (method endpoint : String)
    (options : RequestOptions) : RequestConfig :=
  let headers := buildHeaders auth options.headers
  let cfg : RequestConfig :=
    { method := method
      url := auth.baseURL ++ endpoint
      headers := headers
      params := options.params
      data := options.data }
  if method == "GET" && options.params.isSome then
    { cfg with params := options.params }
  else if method == "PUT" || method == "POST" || method == "PATCH" then
    { cfg with data := options.data }
  else cfg

/-- An HTTP response as surfaced by axios: status plus decoded body. -/
structure AxiosResponse where
  status : Nat
  data : Json

/-- The error object axios rejects with: `response` is absent exactly for
network-level failures. -/
structure AxiosError where
  response : Option AxiosResponse

/-- What the transport did for one call: either the server answered with
some status and body, or the request failed at the network level. -/
inductive AxiosOutcome where
  | response (status : Nat) (data : Json)
  | networkError

/-- `axios.request` under the default `validateStatus`: a response with
status in [200, 300) resolves; any other status rejects with the response
attached; a network failure rejects with no response. -/
def axiosRequest : AxiosOutcome → Except AxiosError AxiosResponse
  | .response s d =>
      if 200 ≤ s ∧ s < 300 then .ok ⟨s, d⟩ else .error ⟨some ⟨s, d⟩⟩
  | .networkError => .error ⟨none⟩

/-- Lines 73-82: the fixed status → message table. -/
def errorMessages (status : Nat) : Option String :=
  if status == 200 then some "Success"
  else if status == 300 then some "Multiple Choices"
  else if status == 400 then some "Bad request"
  else if status == 401 then some "Access token must be valid."
  else if status == 429 then some "Request limit reached. Try again later."
  else if status == 500 then some "Discord API Server Error"
  else if status == 404 then some "Not found."
  else if status == 403 then some "You are not authorized to perform this action."
  else none

/-- The guard `error?.response.data && error?.response.data.message`:
the body is truthy and has a truthy `message` field. -/
def hasTruthyMessage (body : Json) : Bool :=
  body.truthy &&
    (match body.getField "message" with
     | some v => v.truthy
     | none => false)

/-- Lines 88-135, the catch block of `request`.  Note `error?.response.status`:
when the rejection carries no response (network failure) the `.status` read on
`undefined` throws a `TypeError`. -/
def requestCatch (e : AxiosError) : ApiError :=
  match e.response with
  | none => .typeError "Cannot read properties of undefined (reading status)"
  | some resp =>
    let errorMessage := (errorMessages resp.status).getD
      ("Status " ++ toString resp.status ++ " is not handled yet.")
    if hasTruthyMessage resp.data then
      if resp.status == 401 then
        .invalidAccessTokenError errorMessage (jsonStringify resp.data)
      else if resp.status == 404 then
        .notFoundError errorMessage (jsonStringify resp.data)
      else if resp.status == 400 then
        .badRequestError errorMessage (jsonStringify resp.data)
      else if resp.status == 429 then
        .rateLimitedError errorMessage (jsonStringify resp.data)
      else if resp.status == 500 then
        .discordAPIError errorMessage (jsonStringify resp.data)
      else if resp.status == 403 then
        .unauthorizedError errorMessage (jsonStringify resp.data)
      else
        .jsError (errorMessage ++ " Response Data: " ++ jsonStringify resp.data)
    else .jsError errorMessage

/-- Lines 49-137, the private executor `request`: build the config, issue the
single axios call, return `response.data` on resolution, classify on
rejection. -/
def request (auth : DiscordAuthorization) (method endpoint : String)
    (options : RequestOptions) (outcome : AxiosOutcome) : Except ApiError Json :=
  let _cfg := buildRequestConfig auth method endpoint options
  match axiosRequest outcome with
  | .ok resp => .ok resp.data
  | .error e => .error (requestCatch e)

/-!
`URLSearchParams` (WHATWG `application/x-www-form-urlencoded`).  The
serializer works on the UTF-8 bytes of the strings, so it is modelled at
byte level: a JavaScript string is a `ByteStr`, the list of its UTF-8
bytes.  A byte that is ASCII alphanumeric or one of `*-._` is kept, a space
becomes `+`, every other byte becomes `%XX` with uppercase hex digits.
-/

abbrev ByteStr := List Nat

/-- All bytes of a byte string are actual bytes. -/
def bytesValid (s : ByteStr) : Prop := ∀ b ∈ s, b < 256

instance (s : ByteStr) : Decidable (bytesValid s) := by
  unfold bytesValid; infer_instance

/-- Bytes the urlencoded serializer leaves unescaped:
ASCII alphanumeric, `*` (0x2A), `-` (0x2D), `.` (0x2E), `_` (0x5F). -/
def isSafeByte (b : Nat) : Bool :=
  (48 ≤ b && b ≤ 57) || (65 ≤ b && b ≤ 90) || (97 ≤ b && b ≤ 122) ||
    b == 42 || b == 45 || b == 46 || b == 95

/-- Uppercase hex digit of a nibble. -/
def hexUpper (n : Nat) : Nat := if n < 10 then 48 + n else 55 + n

/-- Value of a hex digit byte (upper or lower case). -/
def hexVal (c : Nat) : Nat :=
  if 48 ≤ c ∧ c ≤ 57 then c - 48
  else if 65 ≤ c ∧ c ≤ 70 then c - 55
  else if 97 ≤ c ∧ c ≤ 102 then c - 87
  else 0

/-- Urlencoded serialization of one byte. -/
def encodeByte (b : Nat) : ByteStr :=
  if isSafeByte b then [b]
  else if b = 32 then [43]
  else [37, hexUpper (b / 16), hexUpper (b % 16)]

/-- Urlencoded serialization of a byte string. -/
def urlencode : ByteStr → ByteStr
  | [] => []
  | b :: rest => encodeByte b ++ urlencode rest

/-- Urlencoded (URL) decoding: `+` is a space, `%XX` is the byte `XX`,
anything else stands for itself. -/
def urldecode : ByteStr → ByteStr
  | [] => []
  | 43 :: rest => 32 :: urldecode rest
  | 37 :: h :: l :: rest => (16 * hexVal h + hexVal l) :: urldecode rest
  | b :: rest => b :: urldecode rest

/-- One `key=value` pair of a `URLSearchParams` serialization. -/
def serializePair (p : ByteStr × ByteStr) : ByteStr :=
  urlencode p.1 ++ 61 :: urlencode p.2

/-- `URLSearchParams.toString()`: the pairs, each `key=value`, joined
with `&` (0x26). -/
def serializeParams : List (ByteStr × ByteStr) → ByteStr
  | [] => []
  | [p] => serializePair p
  | p :: q :: rest => serializePair p ++ 38 :: serializeParams (q :: rest)

/-- Split a query string on `&`. -/
def splitAmp : ByteStr → List ByteStr
  | [] => [[]]
  | b :: rest =>
    if b = 38 then [] :: splitAmp rest
    else
      match splitAmp rest with
      | [] => [[b]]
      | g :: gs => (b :: g) :: gs

/-- Decode one `key=value` piece: split at the first `=`, URL-decode both
sides. -/
def parsePair (s : ByteStr) : ByteStr × ByteStr :=
  (urldecode (s.takeWhile (fun c => c ≠ 61)),
   urldecode ((s.dropWhile (fun c => c ≠ 61)).drop 1))

/-- URL-decode a query string into its parameter list. -/
def parseQuery (s : ByteStr) : List (ByteStr × ByteStr) :=
  (splitAmp s).map parsePair

/-- The bytes of an ASCII Lean string, standing for a JavaScript string. -/
def strToBytes (s : String) : ByteStr := s.data.map Char.toNat

/-- Render a byte string back as a Lean string (used for outbound bodies,
which the claims only compare for equality). -/
def bytesToStr (bs : ByteStr) : String := String.mk (bs.map Char.ofNat)

/-- `URLSearchParams.toString()` lifted to Lean strings, for the outbound
form bodies built by `exchangeCodeForTokens` and `revokeToken`. -/
def serializeParamsStr (ps : List (String × String)) : String :=
  bytesToStr (serializeParams (ps.map (fun p => (strToBytes p.1, strToBytes p.2))))

/-- `scopes.join(" ")`. -/
def joinScopes : List ByteStr → ByteStr
  | [] => []
  | [s] => s
  | s :: t :: rest => s ++ 32 :: joinScopes (t :: rest)

/-- The authorization base URL of `generateOauth2Link` (before the `?`). -/
def authBase : ByteStr := strToBytes "https://discord.com/oauth2/authorize"

/-- Lines 157-163: the `URLSearchParams` of the authorization link, in
source order. -/
def oauthParams (clientId redirectUri : ByteStr) (scopes : List ByteStr)
    (state : ByteStr) : List (ByteStr × ByteStr) :=
  [(strToBytes "client_id", clientId),
   (strToBytes "redirect_uri", redirectUri),
   (strToBytes "response_type", strToBytes "code"),
   (strToBytes "state", state),
   (strToBytes "scope", joinScopes scopes)]

/-- Lines 145-166, `generateOauth2Link` (at byte level; the runtime
string-type check on `state` always passes for a string argument). -/
def generateOauth2Link (clientId redirectUri : ByteStr) (scopes : List ByteStr)
    (state : ByteStr) : ByteStr :=
  authBase ++ 63 :: serializeParams (oauthParams clientId redirectUri scopes state)

/-- The query string of a URL: everything after the first `?` (0x3F). -/
def queryOf (url : ByteStr) : ByteStr :=
  ((url.dropWhile (fun c => c ≠ 63)).drop 1)

/-!  JavaScript property-access model for the call-site reshaping code. -/

/-- Plain property read `v.k` where `v` may be `undefined` (`none`):
reading a property of `undefined` or `null` throws a `TypeError`. -/
def jsGetProp : Option Json → String → Except ApiError (Option Json)
  | none, k =>
      .error (.typeError ("Cannot read properties of undefined (reading " ++ k ++ ")"))
  | some .null, k =>
      .error (.typeError ("Cannot read properties of null (reading " ++ k ++ ")"))
  | some j, k => .ok (j.getField k)

/-- `v?.k1.k2`: the optional chain short-circuits to `undefined` when `v`
is nullish; otherwise `v.k1` is read (never throwing, `v` being defined and
non-null) and the plain `.k2` read follows, which throws when `v.k1` is
nullish. -/
def optChainProp2 (v : Option Json) (k1 k2 : String) :
    Except ApiError (Option Json) :=
  match v with
  | none => .ok none
  | some .null => .ok none
  | some j => jsGetProp (j.getField k1) k2

/-- The object `exchangeCodeForTokens` resolves with; a field is `none`
when the JavaScript value would be `undefined`. -/
structure ExchangeTokens where
  accessToken : Option Json
  refreshToken : Option Json

/-- Lines 192-197: the options of the token-exchange call. -/
def exchangeOptions (auth : DiscordAuthorization) (code : String) : RequestOptions :=
  { headers := [("Content-Type", "application/x-www-form-urlencoded")],
    data := some (serializeParamsStr
      [("client_id", auth.clientId),
       ("client_secret", auth.clientSecret),
       ("grant_type", "authorization_code"),
       ("code", code),
       ("redirect_uri", auth.redirectUri)]) }

/-- Lines 174-203, `exchangeCodeForTokens`: issue the exchange through the
executor, then build the result from `response?.data.access_token` and
`response?.data.refresh_token` — `response` being the executor's return
value, which is already the decoded body. -/
def exchangeCodeForTokens (auth : DiscordAuthorization) (code : String)
    (outcome : AxiosOutcome) : Except ApiError ExchangeTokens :=
  match request auth "POST" "/oauth2/token" (exchangeOptions auth code) outcome with
  | .error e => .error e
  | .ok response =>
    match optChainProp2 (some response) "data" "access_token" with
    | .error e => .error e
    | .ok tokA =>
      match optChainProp2 (some response) "data" "refresh_token" with
      | .error e => .error e
      | .ok tokR => .ok ⟨tokA, tokR⟩

/-!  Revocation. -/

/-- One outbound `axios.post` call of `revokeToken`: URL and form body. -/
structure RevokeCall where
  url : String
  body : String
deriving DecidableEq, Repr

/-- The transport outcome of the revoke call: success, or rejection with
some error (which `revokeToken` does not catch). -/
inductive PostOutcome where
  | success
  | failure (e : ApiError)

/-- The precondition error thrown when either token is missing. -/
def revokePreconditionFailed : ApiError :=
  .jsError "Access token and refresh token are required to revoke the token."

/-- Lines 224-249, `revokeToken`: guard on both tokens being set (JavaScript
falsiness), then a single `axios.post` to the revoke endpoint; on success
clear both token fields.  The result records the thrown error or unit, the
final instance state, and the outbound calls that were made. -/
def revokeToken (auth : DiscordAuthorization) (outcome : PostOutcome) :
    Except ApiError Unit × DiscordAuthorization × List RevokeCall :=
  if jsFalsy auth.accessToken || jsFalsy auth.refreshToken then
    (.error revokePreconditionFailed, auth, [])
  else
    let body := serializeParamsStr
      [("client_id", auth.clientId),
       ("client_secret", auth.clientSecret),
       ("token", tmplStr auth.refreshToken)]
    let call : RevokeCall := ⟨"https://discord.com/api/oauth2/token/revoke", body⟩
    match outcome with
    | .success =>
        (.ok (), { auth with accessToken := none, refreshToken := none }, [call])
    | .failure e => (.error e, auth, [call])

/-!  `getApplication` (lines 305-310). -/

/-- The options `getApplication` passes to the executor: a Bot-token
Authorization header. -/
def getApplicationOptions (auth : DiscordAuthorization) : RequestOptions :=
  { headers := [("Authorization", "Bot " ++ tmplStr auth.clientToken)] }

/-- The request configuration the executor builds for `getApplication`. -/
def getApplicationConfig (auth : DiscordAuthorization) : RequestConfig :=
  buildRequestConfig auth "GET" "/oauth2/applications/@me" (getApplicationOptions auth)

def sampleAuth : DiscordAuthorization :=
  { clientId := "cid", clientSecret := "secret", redirectUri := "https://app.example/cb" }

/-!  Helper lemmas about the JavaScript-object model. -/

theorem lookupHeader_objSet_self (hs : List (String × String)) (k v : String) :
    lookupHeader (objSet hs k v) k = some v := by
  induction hs with
  | nil => simp [objSet, lookupHeader]
  | cons p rest ih =>
    by_cases hp : p.1 == k
    · simp [objSet, hp, lookupHeader]
    · simp [objSet, hp, lookupHeader, ih]

theorem lookupHeader_objSet_other (hs : List (String × String)) (k v k2 : String)
    (hk : k2 ≠ k) : lookupHeader (objSet hs k v) k2 = lookupHeader hs k2 := by
  induction hs with
  | nil =>
    have : (k == k2) = false := by
      simp only [beq_eq_false_iff_ne]; exact fun h => hk h.symm
    simp [objSet, lookupHeader, this]
  | cons p rest ih =>
    by_cases hp : p.1 == k
    · have hpk : p.1 = k := eq_of_beq hp
      have h1 : (k == k2) = false := by
        simp only [beq_eq_false_iff_ne]; exact fun h => hk h.symm
      have h2 : (p.1 == k2) = false := by
        simp only [beq_eq_false_iff_ne, hpk]; exact fun h => hk h.symm
      simp [objSet, hp, lookupHeader, h1, h2]
    · simp [objSet, hp, lookupHeader, ih]

theorem buildRequestConfig_headers (auth : DiscordAuthorization)
    (method endpoint : String) (options : RequestOptions) :
    (buildRequestConfig auth method endpoint options).headers =
      buildHeaders auth options.headers := by
  unfold buildRequestConfig
  dsimp only
  split
  · rfl
  · split <;> rfl

theorem bearer_ne_bot (a b : String) : "Bearer " ++ a ≠ "Bot " ++ b := by
  intro h
  have h2 := congrArg String.data h
  rw [String.data_append, String.data_append] at h2
  have ha : ("Bearer " : String).data = ['B', 'e', 'a', 'r', 'e', 'r', ' '] := rfl
  have hb : ("Bot " : String).data = ['B', 'o', 't', ' '] := rfl
  rw [ha, hb] at h2
  simp at h2

/-!  Claim theorems for the executor and the thin call sites. -/

/-- Claim C1 (code bug): evaluated on the shape the token endpoint returns
(a flat body with `access_token`/`refresh_token` fields), the exchange does
not produce those fields renamed: `request` already returns the decoded
body, so `response?.data.access_token` in `exchangeCodeForTokens` reads
`data` out of the body, finds `undefined`, and the following property read
throws a `TypeError` instead of returning the tokens. -/
theorem exchangeCodeForTokens_double_data_crash :
    exchangeCodeForTokens sampleAuth "thecode"
        (.response 200 (Json.obj
          [("access_token", Json.str "tokA"), ("refresh_token", Json.str "tokR")])) =
      Except.error (ApiError.typeError
        "Cannot read properties of undefined (reading access_token)") := rfl

/-- Claim C2, counterexample: for a 401 response with body
`{"message":"invalid token"}` the raised error is of the
`InvalidAccessToken` kind with the serialized body as context, but its
message is the mapped table message, not the upstream `message` field. -/
theorem request_401_mapped_message_counterexample :
    request sampleAuth "GET" "/users/@me" {}
        (.response 401 (Json.obj [("message", Json.str "invalid token")])) =
      Except.error (ApiError.invalidAccessTokenError "Access token must be valid."
        "\x7b\"message\":\"invalid token\"\x7d") ∧
    "Access token must be valid." ≠ "invalid token" := by
  exact ⟨rfl, by decide⟩

/-- Claim C2 (amended): for every executor call whose response has status
401 and whose body is truthy with a truthy `message` field, the raised
error is of the `InvalidAccessToken` kind, carries the mapped message
`Access token must be valid.` from the status table, and its context is the
JSON serialization of the full response body. -/
theorem request_401_truthy_message_classified (auth : DiscordAuthorization)
    (method endpoint : String) (options : RequestOptions) (body : Json)
    (h : hasTruthyMessage body = true) :
    request auth method endpoint options (.response 401 body) =
      Except.error (ApiError.invalidAccessTokenError "Access token must be valid."
        (jsonStringify body)) := by
  simp [request, axiosRequest, requestCatch, errorMessages, h]

theorem request_401_truthy_message_classified_witness :
    request sampleAuth "GET" "/users/@me" {}
        (.response 401 (Json.obj [("message", Json.str "expired")])) =
      Except.error (ApiError.invalidAccessTokenError "Access token must be valid."
        (jsonStringify (Json.obj [("message", Json.str "expired")]))) :=
  request_401_truthy_message_classified sampleAuth "GET" "/users/@me" {}
    (Json.obj [("message", Json.str "expired")]) rfl

/-- Claim C3, counterexample: for a 500 response whose body has no
`message` field, the raised error is a plain `Error` carrying the mapped
message — it is not of the `UpstreamServerError` (`DiscordAPIError`)
kind. -/
theorem request_500_plain_error_counterexample :
    request sampleAuth "GET" "/users/@me" {}
        (.response 500 (Json.obj [("error", Json.str "oops")])) =
      Except.error (ApiError.jsError "Discord API Server Error") ∧
    ApiError.isUpstreamServerErrorKind (ApiError.jsError "Discord API Server Error") =
      false := by
  exact ⟨rfl, rfl⟩

/-- Claim C3 (amended): for every executor call whose response has status
500 and whose body contains no `message` field, the raised error is a plain
unclassified `Error` carrying only the mapped message
`Discord API Server Error`, with no body context attached. -/
theorem request_500_no_message_plain_error (auth : DiscordAuthorization)
    (method endpoint : String) (options : RequestOptions) (body : Json)
    (h : body.getField "message" = none) :
    request auth method endpoint options (.response 500 body) =
      Except.error (ApiError.jsError "Discord API Server Error") ∧
    ApiError.context (ApiError.jsError "Discord API Server Error") = none := by
  refine ⟨?_, rfl⟩
  simp [request, axiosRequest, requestCatch, errorMessages, hasTruthyMessage, h]

theorem request_500_no_message_plain_error_witness :
    (request sampleAuth "GET" "/users/@me" {}
        (.response 500 (Json.obj [("error", Json.str "oops")])) =
      Except.error (ApiError.jsError "Discord API Server Error") ∧
    ApiError.context (ApiError.jsError "Discord API Server Error") = none) :=
  request_500_no_message_plain_error sampleAuth "GET" "/users/@me" {}
    (Json.obj [("error", Json.str "oops")]) rfl

/-- Claim C4 (code bug): for every executor call that fails at the network
level (the transport rejects with no response object), the catch block
reads `error?.response.status` without guarding `response`, so the executor
throws a `TypeError` — it crashes instead of raising an unclassified
error. -/
theorem request_network_failure_crashes_typeerror (auth : DiscordAuthorization)
    (method endpoint : String) (options : RequestOptions) :
    request auth method endpoint options .networkError =
      Except.error (ApiError.typeError
        "Cannot read properties of undefined (reading status)") := rfl

/-- Claim C5: whenever at least one of `accessToken` and `refreshToken` is
null, `revokeToken` raises the precondition-failure error, performs no
outbound HTTP call, and leaves the instance (both token fields included)
unchanged. -/
theorem revokeToken_missing_token_precondition (auth : DiscordAuthorization)
    (outcome : PostOutcome)
    (h : auth.accessToken = none ∨ auth.refreshToken = none) :
    revokeToken auth outcome =
      (Except.error revokePreconditionFailed, auth, []) := by
  rcases h with h | h <;> simp [revokeToken, jsFalsy, h]

theorem revokeToken_missing_token_precondition_witness :
    revokeToken sampleAuth PostOutcome.success =
      (Except.error revokePreconditionFailed, sampleAuth, []) :=
  revokeToken_missing_token_precondition sampleAuth PostOutcome.success (Or.inl rfl)

/-- Claim C6: from a state with both tokens non-null, a `revokeToken` call
that actually performs its outbound HTTP call and whose call succeeds sets
both `accessToken` and `refreshToken` to null. -/
theorem revokeToken_success_clears_tokens (auth : DiscordAuthorization)
    (a r : String) (h1 : auth.accessToken = some a) (h2 : auth.refreshToken = some r)
    (h3 : (revokeToken auth PostOutcome.success).2.2 ≠ []) :
    ((revokeToken auth PostOutcome.success).2.1).accessToken = none ∧
    ((revokeToken auth PostOutcome.success).2.1).refreshToken = none := by
  by_cases hf : (jsFalsy auth.accessToken || jsFalsy auth.refreshToken) = true
  · exact absurd (by simp [revokeToken, hf]) h3
  · simp [revokeToken, hf]

def revokeAuth : DiscordAuthorization :=
  { sampleAuth with accessToken := some "atok", refreshToken := some "rtok" }

theorem revokeToken_success_clears_tokens_witness :
    ((revokeToken revokeAuth PostOutcome.success).2.1).accessToken = none ∧
    ((revokeToken revokeAuth PostOutcome.success).2.1).refreshToken = none :=
  revokeToken_success_clears_tokens revokeAuth "atok" "rtok" rfl rfl (by decide)

/-- Claim C8, counterexample: a response with status 300 does not make the
executor return the decoded body — axios (default `validateStatus`) rejects
any status outside [200, 300), and the catch block maps 300 to an
unclassified `Multiple Choices` error. -/
theorem request_300_raises_counterexample :
    request sampleAuth "GET" "/users/@me" {} (.response 300 (Json.obj [])) =
      Except.error (ApiError.jsError "Multiple Choices") ∧
    request sampleAuth "GET" "/users/@me" {} (.response 300 (Json.obj [])) ≠
      Except.ok (Json.obj []) := by
  refine ⟨rfl, fun h => ?_⟩
  exact Except.noConfusion h

/-- Claim C8 (amended): for every executor call whose response has status
in the 2xx range, the executor returns the decoded response body without
raising. -/
theorem request_2xx_returns_body (auth : DiscordAuthorization)
    (method endpoint : String) (options : RequestOptions) (s : Nat) (d : Json)
    (h1 : 200 ≤ s) (h2 : s < 300) :
    request auth method endpoint options (.response s d) = Except.ok d := by
  simp [request, axiosRequest, h1, h2]

theorem request_2xx_returns_body_witness :
    request sampleAuth "GET" "/users/@me" {} (.response 204 (Json.obj [])) =
      Except.ok (Json.obj []) :=
  request_2xx_returns_body sampleAuth "GET" "/users/@me" {} 204 (Json.obj [])
    (by decide) (by decide)

/-- Claim C9: the outbound headers of every executor call are the caller's
`options.headers` entries with an injected
`Authorization: Bearer <accessToken>` header assigned on top: the
`Authorization` entry always equals the injected bearer value (even when
the caller supplied an `Authorization` entry of their own), and every other
key keeps the caller's value. -/
theorem request_merges_and_injects_authorization (auth : DiscordAuthorization)
    (method endpoint : String) (options : RequestOptions) (k : String)
    (hk : k ≠ "Authorization") :
    lookupHeader (buildRequestConfig auth method endpoint options).headers
        "Authorization" = some ("Bearer " ++ tmplStr auth.accessToken) ∧
    lookupHeader (buildRequestConfig auth method endpoint options).headers k =
      lookupHeader options.headers k := by
  rw [buildRequestConfig_headers]
  exact ⟨lookupHeader_objSet_self _ _ _,
    lookupHeader_objSet_other _ _ _ _ hk⟩

theorem request_merges_and_injects_authorization_witness :
    (lookupHeader (buildRequestConfig sampleAuth "GET" "/users/@me"
        { headers := [("Authorization", "Bot xyz"), ("X-Foo", "1")] }).headers
        "Authorization" = some ("Bearer " ++ tmplStr sampleAuth.accessToken) ∧
    lookupHeader (buildRequestConfig sampleAuth "GET" "/users/@me"
        { headers := [("Authorization", "Bot xyz"), ("X-Foo", "1")] }).headers
        "X-Foo" =
      lookupHeader [("Authorization", "Bot xyz"), ("X-Foo", "1")] "X-Foo") :=
  request_merges_and_injects_authorization sampleAuth "GET" "/users/@me"
    { headers := [("Authorization", "Bot xyz"), ("X-Foo", "1")] } "X-Foo" (by decide)

/-- Claim C10: the outbound `Authorization` header of `getApplication` is
the executor's injected `Bearer <accessToken>`, not the
`Bot <clientToken>` header the method passes in `options.headers` — the bot
credential is never actually sent by this method. -/
theorem getApplication_sends_bearer_not_bot (auth : DiscordAuthorization) :
    lookupHeader (getApplicationConfig auth).headers "Authorization" =
      some ("Bearer " ++ tmplStr auth.accessToken) ∧
    lookupHeader (getApplicationConfig auth).headers "Authorization" ≠
      some ("Bot " ++ tmplStr auth.clientToken) := by
  have h1 : lookupHeader (getApplicationConfig auth).headers "Authorization" =
      some ("Bearer " ++ tmplStr auth.accessToken) := rfl
  refine ⟨h1, fun h => ?_⟩
  rw [h1] at h
  exact bearer_ne_bot (tmplStr auth.accessToken) (tmplStr auth.clientToken)
    (Option.some.inj h)

/-!  Helper lemmas for the urlencoded round trip (claim C7). -/

theorem hexVal_hexUpper : ∀ n < 16, hexVal (hexUpper n) = n := by decide

theorem hexUpper_ne_delims (n : Nat) :
    hexUpper n ≠ 38 ∧ hexUpper n ≠ 61 ∧ hexUpper n ≠ 43 ∧ hexUpper n ≠ 37 := by
  unfold hexUpper; split <;> omega

theorem isSafeByte_ne_delims (b : Nat) (hs : isSafeByte b = true) :
    b ≠ 43 ∧ b ≠ 37 ∧ b ≠ 38 ∧ b ≠ 61 := by
  unfold isSafeByte at hs
  simp only [Bool.or_eq_true, Bool.and_eq_true, decide_eq_true_eq, beq_iff_eq] at hs
  rcases hs with ((h | h) | h) | h | h | h | h <;> omega

theorem mem_encodeByte_ne_delims (b c : Nat) (hc : c ∈ encodeByte b) :
    c ≠ 38 ∧ c ≠ 61 := by
  unfold encodeByte at hc
  by_cases hs : isSafeByte b = true
  · simp [hs] at hc
    obtain rfl := hc
    exact ⟨(isSafeByte_ne_delims _ hs).2.2.1, (isSafeByte_ne_delims _ hs).2.2.2⟩
  · by_cases h32 : b = 32
    · subst h32
      have h1 : isSafeByte 32 = false := rfl
      simp [h1] at hc
      omega
    · simp [hs, h32] at hc
      rcases hc with hc | hc | hc
      · omega
      · obtain rfl := hc
        exact ⟨(hexUpper_ne_delims _).1, (hexUpper_ne_delims _).2.1⟩
      · obtain rfl := hc
        exact ⟨(hexUpper_ne_delims _).1, (hexUpper_ne_delims _).2.1⟩

theorem mem_urlencode_ne_delims (s : ByteStr) (c : Nat) (hc : c ∈ urlencode s) :
    c ≠ 38 ∧ c ≠ 61 := by
  induction s with
  | nil => simp [urlencode] at hc
  | cons b rest ih =>
    simp only [urlencode, List.mem_append] at hc
    rcases hc with hc | hc
    · exact mem_encodeByte_ne_delims b c hc
    · exact ih hc

theorem urldecode_encodeByte_append (b : Nat) (hb : b < 256) (t : ByteStr) :
    urldecode (encodeByte b ++ t) = b :: urldecode t := by
  unfold encodeByte
  by_cases hs : isSafeByte b = true
  · obtain ⟨h43, h37, -, -⟩ := isSafeByte_ne_delims b hs
    simp [hs, urldecode, h43, h37]
  · by_cases h32 : b = 32
    · subst h32
      simp [hs, urldecode]
    · simp only [hs, h32, if_false, List.cons_append]
      have h1 : b / 16 < 16 := by omega
      have h2 : b % 16 < 16 := Nat.mod_lt _ (by omega)
      simp [urldecode, hexVal_hexUpper _ h1, hexVal_hexUpper _ h2]
      omega

theorem urldecode_urlencode (s : ByteStr) (hv : bytesValid s) :
    urldecode (urlencode s) = s := by
  induction s with
  | nil => rfl
  | cons b rest ih =>
    have hb : b < 256 := hv b (List.mem_cons_self _ _)
    have hrest : bytesValid rest := fun c hc => hv c (List.mem_cons_of_mem _ hc)
    simp only [urlencode]
    rw [urldecode_encodeByte_append b hb (urlencode rest), ih hrest]

theorem splitAmp_append_no_amp (xs ys : ByteStr) (g : ByteStr) (gs : List ByteStr)
    (hxs : ∀ c ∈ xs, c ≠ 38) (hys : splitAmp ys = g :: gs) :
    splitAmp (xs ++ ys) = (xs ++ g) :: gs := by
  induction xs with
  | nil => simpa using hys
  | cons b rest ih =>
    have hb : b ≠ 38 := hxs b (List.mem_cons_self _ _)
    have hrest : ∀ c ∈ rest, c ≠ 38 := fun c hc => hxs c (List.mem_cons_of_mem _ hc)
    simp only [List.cons_append, splitAmp, hb, if_false, List.append_eq]
    rw [ih hrest]

theorem splitAmp_no_amp (xs : ByteStr) (hxs : ∀ c ∈ xs, c ≠ 38) :
    splitAmp xs = [xs] := by
  have h := splitAmp_append_no_amp xs [] [] [] hxs rfl
  simpa using h

theorem takeWhile_all_append (xs ys : ByteStr) (p : Nat → Bool) (sep : Nat)
    (hxs : ∀ c ∈ xs, p c = true) (hsep : p sep = false) :
    (xs ++ sep :: ys).takeWhile p = xs := by
  induction xs with
  | nil => simp [List.takeWhile, hsep]
  | cons b rest ih =>
    have hrest : ∀ c ∈ rest, p c = true := fun c hc => hxs c (List.mem_cons_of_mem _ hc)
    simp [List.takeWhile, hxs b (List.mem_cons_self _ _), ih hrest]

theorem dropWhile_all_append (xs ys : ByteStr) (p : Nat → Bool) (sep : Nat)
    (hxs : ∀ c ∈ xs, p c = true) (hsep : p sep = false) :
    (xs ++ sep :: ys).dropWhile p = sep :: ys := by
  induction xs with
  | nil => simp [List.dropWhile, hsep]
  | cons b rest ih =>
    have hrest : ∀ c ∈ rest, p c = true := fun c hc => hxs c (List.mem_cons_of_mem _ hc)
    simp [List.dropWhile, hxs b (List.mem_cons_self _ _), ih hrest]

theorem parsePair_serializePair (k v : ByteStr) (hk : bytesValid k)
    (hv : bytesValid v) : parsePair (serializePair (k, v)) = (k, v) := by
  have hne : ∀ c ∈ urlencode k, (fun c => decide (c ≠ 61)) c = true :=
    fun c hc => decide_eq_true (mem_urlencode_ne_delims k c hc).2
  have hsep : (fun c => decide (c ≠ 61)) 61 = false := by decide
  unfold parsePair serializePair
  rw [takeWhile_all_append (urlencode k) (urlencode v) _ 61 hne hsep,
    dropWhile_all_append (urlencode k) (urlencode v) _ 61 hne hsep]
  simp [urldecode_urlencode k hk, urldecode_urlencode v hv]

theorem serializePair_no_amp (p : ByteStr × ByteStr) (c : Nat)
    (hc : c ∈ serializePair p) : c ≠ 38 := by
  unfold serializePair at hc
  simp only [List.mem_append, List.mem_cons] at hc
  rcases hc with hc | hc | hc
  · exact (mem_urlencode_ne_delims _ c hc).1
  · omega
  · exact (mem_urlencode_ne_delims _ c hc).1

theorem parseQuery_serializeParams (ps : List (ByteStr × ByteStr)) (hne : ps ≠ [])
    (hv : ∀ p ∈ ps, bytesValid p.1 ∧ bytesValid p.2) :
    parseQuery (serializeParams ps) = ps := by
  induction ps with
  | nil => exact absurd rfl hne
  | cons p rest ih =>
    cases rest with
    | nil =>
      have hp := hv p (List.mem_cons_self _ _)
      simp only [serializeParams, parseQuery,
        splitAmp_no_amp (serializePair p) (serializePair_no_amp p), List.map]
      rw [show serializePair p = serializePair (p.1, p.2) from rfl,
        parsePair_serializePair p.1 p.2 hp.1 hp.2]
    | cons q rest2 =>
      have hp := hv p (List.mem_cons_self _ _)
      have hrest : ∀ x ∈ q :: rest2, bytesValid x.1 ∧ bytesValid x.2 :=
        fun x hx => hv x (List.mem_cons_of_mem _ hx)
      have ihr := ih (by simp) hrest
      unfold parseQuery at ihr
      have hamp : splitAmp (38 :: serializeParams (q :: rest2)) =
          [] :: splitAmp (serializeParams (q :: rest2)) := by
        simp [splitAmp]
      obtain ⟨g, gs, hg⟩ : ∃ g gs, splitAmp (serializeParams (q :: rest2)) = g :: gs := by
        cases hsp : splitAmp (serializeParams (q :: rest2)) with
        | nil => rw [hsp] at ihr; simp at ihr
        | cons g gs => exact ⟨g, gs, rfl⟩
      rw [hg] at hamp
      have := splitAmp_append_no_amp (serializePair p)
        (38 :: serializeParams (q :: rest2)) [] (g :: gs)
        (serializePair_no_amp p) hamp
      simp only [serializeParams, parseQuery, this, List.map, List.append_nil]
      rw [show serializePair p = serializePair (p.1, p.2) from rfl,
        parsePair_serializePair p.1 p.2 hp.1 hp.2]
      rw [hg] at ihr
      simp only [List.map] at ihr
      rw [ihr]

theorem dropWhile_forall_append (xs ys : ByteStr) (p : Nat → Bool)
    (hxs : ∀ c ∈ xs, p c = true) :
    (xs ++ ys).dropWhile p = ys.dropWhile p := by
  induction xs with
  | nil => rfl
  | cons b rest ih =>
    have hb := hxs b (List.mem_cons_self _ _)
    have hrest : ∀ c ∈ rest, p c = true := fun c hc => hxs c (List.mem_cons_of_mem _ hc)
    simp [List.dropWhile, hb, ih hrest]

theorem queryOf_authBase_append (q : ByteStr) : queryOf (authBase ++ 63 :: q) = q := by
  unfold queryOf
  rw [dropWhile_forall_append authBase (63 :: q) _ (by decide)]
  simp [List.dropWhile]

theorem bytesValid_joinScopes (scopes : List ByteStr)
    (h : ∀ s ∈ scopes, bytesValid s) : bytesValid (joinScopes scopes) := by
  induction scopes with
  | nil => intro b hb; simp [joinScopes] at hb
  | cons s rest ih =>
    cases rest with
    | nil =>
      intro b hb
      exact h s (List.mem_cons_self _ _) b (by simpa [joinScopes] using hb)
    | cons t rest2 =>
      intro b hb
      simp only [joinScopes, List.mem_append, List.mem_cons] at hb
      rcases hb with hb | hb | hb
      · exact h s (List.mem_cons_self _ _) b hb
      · omega
      · exact ih (fun x hx => h x (List.mem_cons_of_mem _ hx)) b hb

/-- Claim C7: for every client id, redirect URI, state and scope list, the
query string of the generated authorization link URL-decodes to exactly the
parameters `client_id`, `redirect_uri`, `response_type=code`, the given
`state`, and `scope` equal to the requested scopes joined by single spaces,
in that order and with nothing else.  Strings are taken as their UTF-8
bytes, so the hypotheses say each is a genuine byte string. -/
theorem generateOauth2Link_query_decodes (clientId redirectUri : ByteStr)
    (scopes : List ByteStr) (state : ByteStr) (hc : bytesValid clientId)
    (hr : bytesValid redirectUri) (hst : bytesValid state)
    (hsc : ∀ s ∈ scopes, bytesValid s) :
    parseQuery (queryOf (generateOauth2Link clientId redirectUri scopes state)) =
      [(strToBytes "client_id", clientId),
       (strToBytes "redirect_uri", redirectUri),
       (strToBytes "response_type", strToBytes "code"),
       (strToBytes "state", state),
       (strToBytes "scope", joinScopes scopes)] := by
  unfold generateOauth2Link
  rw [queryOf_authBase_append]
  rw [parseQuery_serializeParams (oauthParams clientId redirectUri scopes state)
    (by simp [oauthParams]) ?_]
  · rfl
  · intro p hp
    simp only [oauthParams, List.mem_cons, List.not_mem_nil, or_false] at hp
    rcases hp with rfl | rfl | rfl | rfl | rfl
    · exact ⟨(by decide : bytesValid (strToBytes "client_id")), hc⟩
    · exact ⟨(by decide : bytesValid (strToBytes "redirect_uri")), hr⟩
    · exact ⟨(by decide : bytesValid (strToBytes "response_type")),
        (by decide : bytesValid (strToBytes "code"))⟩
    · exact ⟨(by decide : bytesValid (strToBytes "state")), hst⟩
    · exact ⟨(by decide : bytesValid (strToBytes "scope")),
        bytesValid_joinScopes scopes hsc⟩

theorem generateOauth2Link_query_decodes_witness :
    parseQuery (queryOf (generateOauth2Link (strToBytes "cid123")
        (strToBytes "https://app.example/cb")
        [strToBytes "identify", strToBytes "guilds"] (strToBytes "abc"))) =
      [(strToBytes "client_id", strToBytes "cid123"),
       (strToBytes "redirect_uri", strToBytes "https://app.example/cb"),
       (strToBytes "response_type", strToBytes "code"),
       (strToBytes "state", strToBytes "abc"),
       (strToBytes "scope", strToBytes "identify guilds")] :=
  generateOauth2Link_query_decodes (strToBytes "cid123")
    (strToBytes "https://app.example/cb")
    [strToBytes "identify", strToBytes "guilds"] (strToBytes "abc")
    (by decide) (by decide) (by decide) (by decide)
